import Mathlib

/-!
Agent start-up: option validation and orchestration.

A shallow embedding of `cmd/agent/main.go`: the options record
`GrpcProxyAgentOptions`, its `Validate` method, the constructor
`newGrpcProxyAgentOptions`, and the start-up sequence `Agent.run`,
`Agent.runProxyConnection`, `Agent.runAdminServer`.

The program talks to the outside world through `os.Stat`, `klog`, the TLS
helper, the tunnel client and the HTTP listener.  Their outcomes are inputs of
the model (`FS`, `Env`); every call the program makes is recorded in a trace,
so that statements about what was or was not done can be made.
-/

namespace AgentMain

/-! ## Go runtime values used by the program -/

/-- An operating-system error number, as carried by a failed system call. -/
structure syscall.Errno where
  code : Nat
  deriving DecidableEq, Repr

/-- No such file or directory. -/
def syscall.ENOENT : syscall.Errno := ⟨2⟩

/-- Permission denied. -/
def syscall.EACCES : syscall.Errno := ⟨13⟩

/-- A component of the path is not a directory. -/
def syscall.ENOTDIR : syscall.Errno := ⟨20⟩

/-- Text of an error number (the entries of the Linux table that are used here). -/
def syscall.Errno.Error (e : syscall.Errno) : String :=
  if e = syscall.ENOENT then "no such file or directory"
  else if e = syscall.EACCES then "permission denied"
  else if e = syscall.ENOTDIR then "not a directory"
  else "errno " ++ toString e.code

/-- An operand of a formatting call.  An operand of interface type `error` is
carried as the text of its `Error()` method, `none` for a nil error. -/
inductive fmt.Arg where
  | string (s : String)
  | int (n : Int)
  | err (msg : Option String)
  deriving DecidableEq, Repr

/-- Default format of an operand, as printed by `%v` (and by `%s` for a string
or an error, by `%d` for an int). -/
def fmt.Arg.format : fmt.Arg → String
  | .string s => s
  | .int n => toString n
  | .err (some m) => m
  | .err none => "<nil>"

/-- The formatting loop for the verbs this program uses (`%s`, `%v`, `%d`, each
applied to an operand it accepts): a verb consumes the next operand and prints
it in its default format, every other character is copied. -/
def fmt.doPrintf : List Char → List fmt.Arg → List Char
  | [], _ => []
  | c :: rest, as =>
    if c = '%' then
      match rest, as with
      | verb :: rest2, a :: as2 =>
        if verb = 's' ∨ verb = 'v' ∨ verb = 'd' then a.format.data ++ fmt.doPrintf rest2 as2
        else c :: verb :: fmt.doPrintf rest2 as
      | verb :: rest2, [] => "%!".data ++ verb :: "(MISSING)".data ++ fmt.doPrintf rest2 []
      | [], _ => "%!(NOVERB)".data
    else c :: fmt.doPrintf rest as

/-- The call `fmt.Sprintf(format, a...)`. -/
def fmt.Sprintf (format : String) (a : List fmt.Arg) : String :=
  ⟨fmt.doPrintf format.data a⟩

/-- A non-nil Go `error` value: a `*os.PathError` (operation, path, error
number) or the result of `fmt.Errorf(format, a...)`. -/
inductive GoError where
  | pathError (Op : String) (Path : String) (Err : syscall.Errno)
  | errorf (format : String) (a : List fmt.Arg)
  deriving DecidableEq, Repr

/-- The Go type `error`; `none` is `nil`. -/
abbrev error := Option GoError

/-- The method `Error()`. -/
def GoError.Error : GoError → String
  | .pathError op path err => op ++ " " ++ path ++ ": " ++ err.Error
  | .errorf format a => fmt.Sprintf format a

/-- An `error` passed as an operand of a formatting call. -/
def fmt.Arg.ofError (err : error) : fmt.Arg :=
  .err (err.map GoError.Error)

/-- The call `fmt.Errorf(format, a...)`. -/
def fmt.Errorf (format : String) (a : List fmt.Arg) : error :=
  some (.errorf format a)

/-- The predicate `os.IsNotExist(err)`: the error is a path error whose error
number is `ENOENT`.  It is false for nil and for every other error. -/
def os.IsNotExist : error → Bool
  | some (.pathError _ _ err) => err = syscall.ENOENT
  | _ => false

/-! ## Collaborators outside this file -/

/-- A `*tls.Config`; the program only passes it on. -/
structure tls.Config where
  handle : Nat
  deriving DecidableEq, Repr

/-- Transport credentials built from a TLS configuration. -/
structure credentials.TransportCredentials where
  config : tls.Config
  deriving DecidableEq, Repr

/-- The call `credentials.NewTLS(c)`. -/
def credentials.NewTLS (c : tls.Config) : credentials.TransportCredentials := ⟨c⟩

/-- A gRPC dial option. -/
structure grpc.DialOption where
  creds : credentials.TransportCredentials
  deriving DecidableEq, Repr

/-- The call `grpc.WithTransportCredentials(creds)`. -/
def grpc.WithTransportCredentials (creds : credentials.TransportCredentials) : grpc.DialOption :=
  ⟨creds⟩

/-- A connected `*agentclient.AgentClient`; the program only serves it. -/
structure agentclient.AgentClient where
  handle : Nat
  deriving DecidableEq, Repr

/-- The filesystem as `stat` sees it: for each path, `none` when the call
succeeds and the error number when it fails. -/
abbrev FS := String → Option syscall.Errno

/-- The error result of `os.Stat(name)` on a filesystem. -/
def FS.stat (fs : FS) (name : String) : error :=
  (fs name).map (GoError.pathError "stat" name)

/-- Outcomes of everything the start-up sequence calls outside this file. -/
structure Env where
  /-- The filesystem consulted by `os.Stat`. -/
  fs : FS
  /-- Outcome of `util.GetClientTLSConfig(caFile, certFile, keyFile, serverName)`. -/
  GetClientTLSConfig : String → String → String → String → Except GoError tls.Config
  /-- Outcome of `agentclient.NewAgentClient(address, opts)`. -/
  NewAgentClient : String → grpc.DialOption → Except GoError agentclient.AgentClient
  /-- Error returned by `adminServer.ListenAndServe()` for the server address. -/
  ListenAndServe : String → error

/-! ## Traces -/

/-- A call observed during execution. -/
inductive Event where
  | klogWarningf (msg : String)
  | osStat (name : String)
  | GetClientTLSConfig (caFile : String) (certFile : String) (keyFile : String) (serverName : String)
  | NewAgentClient (address : String) (opts : grpc.DialOption)
  | clientServe (client : agentclient.AgentClient)
  | ListenAndServe (addr : String) (patterns : List String) (maxHeaderBytes : Nat)
  | go
  deriving DecidableEq, Repr

/-- Execution state: the calls made so far by the current goroutine, and, for
each goroutine started with `go`, the calls that goroutine makes. -/
structure State where
  trace : List Event
  goroutines : List (List Event)
  deriving DecidableEq, Repr

/-- The state at process start. -/
def State.init : State := ⟨[], []⟩

/-- Computations of the program: a result and the state after it. -/
abbrev Go := StateM State

/-- Record a call. -/
def emit (e : Event) : Go Unit :=
  fun s => ((), { s with trace := s.trace ++ [e] })

/-- The statement `go body`: the goroutine runs detached, on a trace of its own. -/
def goStmt (body : Go Unit) : Go Unit :=
  fun s => ((), { trace := s.trace ++ [Event.go]
                  goroutines := s.goroutines ++ [(body State.init).2.trace] })

/-- The call `os.Stat(name)`, keeping the error result. -/
def os.Stat (fs : FS) (name : String) : Go error := do
  emit (.osStat name)
  return fs.stat name

/-- The call `klog.Warningf(format, a...)`. -/
def klog.Warningf (format : String) (a : List fmt.Arg) : Go Unit :=
  emit (.klogWarningf (fmt.Sprintf format a))

/-! ## The program -/

/-- The options record. -/
structure GrpcProxyAgentOptions where
  agentCert : String
  agentKey : String
  caCert : String
  proxyServerHost : String
  proxyServerPort : Int
  deriving DecidableEq, Repr

/-- The method `Print`. -/
def GrpcProxyAgentOptions.Print (o : GrpcProxyAgentOptions) : Go Unit := do
  klog.Warningf "AgentCert set to \"%s\".\n" [.string o.agentCert]
  klog.Warningf "AgentKey set to \"%s\".\n" [.string o.agentKey]
  klog.Warningf "CACert set to \"%s\".\n" [.string o.caCert]
  klog.Warningf "ProxyServerHost set to \"%s\".\n" [.string o.proxyServerHost]
  klog.Warningf "ProxyServerPort set to %d.\n" [.int o.proxyServerPort]

/-- The method `Validate`. -/
def GrpcProxyAgentOptions.Validate (fs : FS) (o : GrpcProxyAgentOptions) : Go error := do
  if o.agentKey ≠ "" then
    let err ← os.Stat fs o.agentKey
    if os.IsNotExist err then
      return fmt.Errorf "error checking agent key %s, got %v" [.string o.agentKey, .ofError err]
    if o.agentCert = "" then
      return fmt.Errorf "cannot have agent cert empty when agent key is set to \"%s\"" [.string o.agentKey]
  if o.agentCert ≠ "" then
    let err ← os.Stat fs o.agentCert
    if os.IsNotExist err then
      return fmt.Errorf "error checking agent cert %s, got %v" [.string o.agentCert, .ofError err]
    if o.agentKey = "" then
      return fmt.Errorf "cannot have agent key empty when agent cert is set to \"%s\"" [.string o.agentCert]
  if o.caCert ≠ "" then
    let err ← os.Stat fs o.caCert
    if os.IsNotExist err then
      return fmt.Errorf "error checking agent CA cert %s, got %v" [.string o.caCert, .ofError err]
  if o.proxyServerPort ≤ 0 then
    return fmt.Errorf "proxy server port %d must be greater than 0" [.int o.proxyServerPort]
  return none

/-- The constructor `newGrpcProxyAgentOptions`. -/
def newGrpcProxyAgentOptions : GrpcProxyAgentOptions :=
  { agentCert := ""
    agentKey := ""
    caCert := ""
    proxyServerHost := "127.0.0.1"
    proxyServerPort := 8091 }

/-- The (empty) receiver type `Agent`. -/
structure Agent where
  deriving DecidableEq, Repr

/-- The call `util.GetClientTLSConfig(caFile, certFile, keyFile, serverName)`. -/
def util.GetClientTLSConfig (env : Env) (caFile certFile keyFile serverName : String) :
    Go (Except GoError tls.Config) := do
  emit (.GetClientTLSConfig caFile certFile keyFile serverName)
  return env.GetClientTLSConfig caFile certFile keyFile serverName

/-- The call `agentclient.NewAgentClient(address, opts)`. -/
def agentclient.NewAgentClient (env : Env) (address : String) (opts : grpc.DialOption) :
    Go (Except GoError agentclient.AgentClient) := do
  emit (.NewAgentClient address opts)
  return env.NewAgentClient address opts

/-- The call `client.Serve(stopCh)`. -/
def agentclient.AgentClient.Serve (client : agentclient.AgentClient) : Go Unit :=
  emit (.clientServe client)

/-- The method `runProxyConnection`. -/
def Agent.runProxyConnection (_a : Agent) (env : Env) (o : GrpcProxyAgentOptions) : Go error := do
  match ← util.GetClientTLSConfig env o.caCert o.agentCert o.agentKey o.proxyServerHost with
  | .error err => return some err
  | .ok tlsConfig =>
    let dialOption := grpc.WithTransportCredentials (credentials.NewTLS tlsConfig)
    match ← agentclient.NewAgentClient env
        (fmt.Sprintf "%s:%d" [.string o.proxyServerHost, .int o.proxyServerPort]) dialOption with
    | .error err => return some err
    | .ok client =>
      goStmt client.Serve
      return none

/-- The body of the goroutine started by `runAdminServer`. -/
def adminServerGoroutine (env : Env) (addr : String) (patterns : List String)
    (maxHeaderBytes : Nat) : Go Unit := do
  emit (.ListenAndServe addr patterns maxHeaderBytes)
  let err := env.ListenAndServe addr
  if err ≠ none then
    klog.Warningf "health server received %v.\n" [.ofError err]
  klog.Warningf "Health server stopped listening\n" []

/-- The method `runAdminServer`. -/
def Agent.runAdminServer (_a : Agent) (env : Env) (_o : GrpcProxyAgentOptions) : Go error := do
  goStmt (adminServerGoroutine env "127.0.0.1:8093" ["/healthz", "/ready", "/metrics"] (1 <<< 20))
  return none

/-- How a call of `run` ends: it returns an error value, or it stays blocked on
the receive from `stopCh`, a channel nothing sends on or closes. -/
inductive Outcome where
  | returned (err : error)
  | blocked
  deriving DecidableEq, Repr

/-- The method `run`. -/
def Agent.run (a : Agent) (env : Env) (o : GrpcProxyAgentOptions) : Go Outcome := do
  o.Print
  let err ← o.Validate env.fs
  if err ≠ none then
    return .returned (fmt.Errorf "failed to validate agent options with %v" [.ofError err])
  let err ← a.runProxyConnection env o
  if err ≠ none then
    return .returned (fmt.Errorf "failed to run proxy connection with %v" [.ofError err])
  let err ← a.runAdminServer env o
  if err ≠ none then
    return .returned (fmt.Errorf "failed to run admin server with %v" [.ofError err])
  return .blocked

/-! ## Vocabulary of the specification -/

/-- A path names an existing file: `stat` on it succeeds. -/
def fileExists (fs : FS) (p : String) : Prop :=
  fs p = none

/-- A path names a file that does not exist: the error of `stat` on it
satisfies `os.IsNotExist`. -/
def fileMissing (fs : FS) (p : String) : Prop :=
  os.IsNotExist (fs.stat p) = true

instance (fs : FS) (p : String) : Decidable (fileExists fs p) :=
  inferInstanceAs (Decidable (fs p = none))

instance (fs : FS) (p : String) : Decidable (fileMissing fs p) :=
  inferInstanceAs (Decidable (os.IsNotExist (fs.stat p) = true))

/-- The three path fields of the options record. -/
def pathFields (o : GrpcProxyAgentOptions) : List String :=
  [o.agentKey, o.agentCert, o.caCert]

/-- Invariant I1: identity certificate and key are both empty or both non-empty. -/
def I1 (o : GrpcProxyAgentOptions) : Prop :=
  (o.agentCert = "" ∧ o.agentKey = "") ∨ (o.agentCert ≠ "" ∧ o.agentKey ≠ "")

/-- Invariant I2: every non-empty path field names an existing file. -/
def I2 (fs : FS) (o : GrpcProxyAgentOptions) : Prop :=
  ∀ p ∈ pathFields o, p ≠ "" → fileExists fs p

/-- Invariant I3: the port is positive. -/
def I3 (o : GrpcProxyAgentOptions) : Prop :=
  0 < o.proxyServerPort

/-- No non-empty path field names a file that `stat` reports as not existing. -/
def noneMissing (fs : FS) (o : GrpcProxyAgentOptions) : Prop :=
  ∀ p ∈ pathFields o, p ≠ "" → ¬ fileMissing fs p

instance (o : GrpcProxyAgentOptions) : Decidable (I1 o) :=
  inferInstanceAs (Decidable (_ ∨ _))

instance (fs : FS) (o : GrpcProxyAgentOptions) : Decidable (I2 fs o) :=
  inferInstanceAs (Decidable (∀ p ∈ pathFields o, p ≠ "" → fileExists fs p))

instance (o : GrpcProxyAgentOptions) : Decidable (I3 o) :=
  inferInstanceAs (Decidable (0 < o.proxyServerPort))

instance (fs : FS) (o : GrpcProxyAgentOptions) : Decidable (noneMissing fs o) :=
  inferInstanceAs (Decidable (∀ p ∈ pathFields o, p ≠ "" → ¬ fileMissing fs p))

/-- The path field a `MissingFile` error is about. -/
inductive PathField where
  | agentKey
  | agentCert
  | caCert
  deriving DecidableEq, Repr

/-- The error kinds of the specification. -/
inductive ValidationError where
  | MissingFile (field : PathField) (path : String)
  | IncompleteIdentity
  | InvalidPort
  deriving DecidableEq, Repr

instance : DecidableEq (Except ValidationError Unit)
  | .ok _, .ok _ => isTrue rfl
  | .error a, .error b =>
    if h : a = b then isTrue (congrArg Except.error h)
    else isFalse (fun h2 => h (Except.error.inj h2))
  | .ok _, .error _ => isFalse (fun h => Except.noConfusion h)
  | .error _, .ok _ => isFalse (fun h => Except.noConfusion h)

/-- The path operand a format was applied to. -/
def pathOperand : List fmt.Arg → Option String
  | .string p :: _ => some p
  | _ => none

/-- The kind of an error of `Validate`, read off the format of the
`fmt.Errorf` call that built it: the three `error checking ...` formats are
`MissingFile`, the two `cannot have ... empty ...` formats are
`IncompleteIdentity`, the `proxy server port ...` format is `InvalidPort`. -/
def classify : GoError → Option ValidationError
  | .pathError _ _ _ => none
  | .errorf format a =>
    if format = "error checking agent key %s, got %v" then
      (pathOperand a).map (ValidationError.MissingFile .agentKey)
    else if format = "error checking agent cert %s, got %v" then
      (pathOperand a).map (ValidationError.MissingFile .agentCert)
    else if format = "error checking agent CA cert %s, got %v" then
      (pathOperand a).map (ValidationError.MissingFile .caCert)
    else if format = "cannot have agent cert empty when agent key is set to \"%s\"" then
      some .IncompleteIdentity
    else if format = "cannot have agent key empty when agent cert is set to \"%s\"" then
      some .IncompleteIdentity
    else if format = "proxy server port %d must be greater than 0" then
      some .InvalidPort
    else none

/-- The result of `Validate` in the terms of the specification: success, or an
error of one of the three kinds (`none` for any other error value). -/
def abstractResult : error → Option (Except ValidationError Unit)
  | none => some (.ok ())
  | some e => (classify e).map .error

/-- The four rules of the validator. -/
inductive Rule where
  | identityKey
  | identityCert
  | caCert
  | port
  deriving DecidableEq, Repr

/-- One rule of the validator, as the specification words it, a path counting
as not existing when `fileMissing` holds of it. -/
def Rule.check (fs : FS) (o : GrpcProxyAgentOptions) : Rule → Except ValidationError Unit
  | .identityKey =>
    if o.agentKey ≠ "" then
      if fileMissing fs o.agentKey then .error (.MissingFile .agentKey o.agentKey)
      else if o.agentCert = "" then .error .IncompleteIdentity
      else .ok ()
    else .ok ()
  | .identityCert =>
    if o.agentCert ≠ "" then
      if fileMissing fs o.agentCert then .error (.MissingFile .agentCert o.agentCert)
      else if o.agentKey = "" then .error .IncompleteIdentity
      else .ok ()
    else .ok ()
  | .caCert =>
    if o.caCert ≠ "" ∧ fileMissing fs o.caCert then .error (.MissingFile .caCert o.caCert)
    else .ok ()
  | .port =>
    if o.proxyServerPort ≤ 0 then .error .InvalidPort else .ok ()

/-- A rule is violated. -/
def Rule.violated (fs : FS) (o : GrpcProxyAgentOptions) (r : Rule) : Prop :=
  r.check fs o ≠ .ok ()

/-- The rules checked in a given order, stopping at the first one that fails. -/
def validateInOrder (fs : FS) (o : GrpcProxyAgentOptions) : List Rule → Except ValidationError Unit
  | [] => .ok ()
  | r :: rest =>
    match r.check fs o with
    | .error e => .error e
    | .ok _ => validateInOrder fs o rest

/-- The validator of the specification: the four rules in the stated order. -/
def validateSpec (fs : FS) (o : GrpcProxyAgentOptions) : Except ValidationError Unit :=
  validateInOrder fs o [.identityKey, .identityCert, .caCert, .port]

/-- All violations, every rule of the list being evaluated. -/
def allViolations (fs : FS) (o : GrpcProxyAgentOptions) (rules : List Rule) : List ValidationError :=
  rules.filterMap fun r =>
    match r.check fs o with
    | .error e => some e
    | .ok _ => none

/-! ## Concrete inputs -/

/-- A filesystem holding `/tmp/real.key` and `/tmp/real.pem`: `stat` succeeds on
these two, fails with `EACCES` below `/root/`, with `ENOTDIR` on
`/etc/hostname/ca.pem`, and with `ENOENT` on every other path. -/
def sampleFS : FS := fun p =>
  if p = "/tmp/real.key" ∨ p = "/tmp/real.pem" then none
  else if p = "/root/ca.pem" then some syscall.EACCES
  else if p = "/etc/hostname/ca.pem" then some syscall.ENOTDIR
  else some syscall.ENOENT

/-- Options with a complete identity whose files exist. -/
def identityOptions : GrpcProxyAgentOptions :=
  { newGrpcProxyAgentOptions with agentCert := "/tmp/real.pem", agentKey := "/tmp/real.key" }

/-- Options with only the key set, to a file that does not exist. -/
def missingKeyOnlyOptions : GrpcProxyAgentOptions :=
  { newGrpcProxyAgentOptions with agentKey := "/tmp/missing.key" }

/-- Options with only the key set, to a file that exists. -/
def keyOnlyOptions : GrpcProxyAgentOptions :=
  { newGrpcProxyAgentOptions with agentKey := "/tmp/real.key" }

/-- Options with only the key set, to a file that exists, and a CA
certificate that does not exist. -/
def keyOnlyMissingCAOptions : GrpcProxyAgentOptions :=
  { newGrpcProxyAgentOptions with agentKey := "/tmp/real.key", caCert := "/tmp/missing.pem" }

/-- Options with a complete identity and a CA certificate that does not exist. -/
def missingCAOptions : GrpcProxyAgentOptions :=
  { identityOptions with caCert := "/tmp/missing.pem" }

/-- Options with port 0 and a key that does not exist. -/
def portZeroMissingKeyOptions : GrpcProxyAgentOptions :=
  { newGrpcProxyAgentOptions with agentKey := "/tmp/missing.key", proxyServerPort := 0 }

/-- The default options with port 0. -/
def portZeroOptions : GrpcProxyAgentOptions :=
  { newGrpcProxyAgentOptions with proxyServerPort := 0 }

/-- Options whose key exists and whose certificate does not. -/
def missingCertOptions : GrpcProxyAgentOptions :=
  { newGrpcProxyAgentOptions with agentCert := "/tmp/missing.pem", agentKey := "/tmp/real.key" }

/-- Options whose CA certificate path runs through a regular file, so that it
names nothing and `stat` fails with `ENOTDIR`. -/
def notDirCAOptions : GrpcProxyAgentOptions :=
  { newGrpcProxyAgentOptions with caCert := "/etc/hostname/ca.pem" }

/-- Options whose key exists and whose certificate path runs through a regular
file, so that it names nothing and `stat` fails with `ENOTDIR`. -/
def notDirCertOptions : GrpcProxyAgentOptions :=
  { newGrpcProxyAgentOptions with
    agentCert := "/etc/hostname/ca.pem", agentKey := "/tmp/real.key" }

/-- Options whose CA certificate cannot be examined: `stat` fails with `EACCES`. -/
def unreadableCAOptions : GrpcProxyAgentOptions :=
  { identityOptions with caCert := "/root/ca.pem" }

/-- Exactly one of the identity certificate and key is non-empty. -/
def exactlyOneIdentity (o : GrpcProxyAgentOptions) : Prop :=
  (o.agentKey ≠ "" ∧ o.agentCert = "") ∨ (o.agentKey = "" ∧ o.agentCert ≠ "")

instance (o : GrpcProxyAgentOptions) : Decidable (exactlyOneIdentity o) :=
  inferInstanceAs (Decidable (_ ∨ _))

/-- The identity path that is set, when one is: the key if it is non-empty,
the certificate otherwise. -/
def identityPath (o : GrpcProxyAgentOptions) : String :=
  if o.agentKey ≠ "" then o.agentKey else o.agentCert

/-- The field of `identityPath`. -/
def identityField (o : GrpcProxyAgentOptions) : PathField :=
  if o.agentKey ≠ "" then .agentKey else .agentCert

/-- The error kind is `MissingFile`. -/
def ValidationError.isMissingFile : ValidationError → Bool
  | .MissingFile _ _ => true
  | _ => false

/-- An environment in which the proxy server cannot be reached and the admin
address is already taken: the TLS configuration is built, the client
constructor fails, and so does the listener. -/
def unreachableEnv : Env :=
  { fs := sampleFS
    GetClientTLSConfig := fun _ _ _ _ => .ok ⟨0⟩
    NewAgentClient := fun _ _ => .error (.errorf "connection refused" [])
    ListenAndServe := fun _ =>
      fmt.Errorf "listen tcp 127.0.0.1:8093: bind: address already in use" [] }

/-! ## Theorems -/

theorem run_pure {α : Type} (a : α) (s : State) : (pure a : Go α) s = (a, s) := rfl

theorem run_bind {α β : Type} (m : Go α) (f : α → Go β) (s : State) :
    (m >>= f) s = f (m s).1 (m s).2 := rfl

theorem run_ite {α : Type} (c : Prop) [Decidable c] (a b : Go α) (s : State) :
    (if c then a else b) s = if c then a s else b s := by
  split <;> rfl

theorem run_emit (e : Event) (s : State) :
    emit e s = ((), { s with trace := s.trace ++ [e] }) := rfl

theorem run_Stat (fs : FS) (name : String) (s : State) :
    os.Stat fs name s = (fs.stat name, { s with trace := s.trace ++ [.osStat name] }) := rfl

/-- The value returned by `Validate`, as one conditional expression. -/
theorem Validate_fst (fs : FS) (o : GrpcProxyAgentOptions) (s : State) :
    (o.Validate fs s).1 =
      if o.agentKey ≠ "" ∧ fileMissing fs o.agentKey then
        fmt.Errorf "error checking agent key %s, got %v"
          [.string o.agentKey, .ofError (fs.stat o.agentKey)]
      else if o.agentKey ≠ "" ∧ o.agentCert = "" then
        fmt.Errorf "cannot have agent cert empty when agent key is set to \"%s\""
          [.string o.agentKey]
      else if o.agentCert ≠ "" ∧ fileMissing fs o.agentCert then
        fmt.Errorf "error checking agent cert %s, got %v"
          [.string o.agentCert, .ofError (fs.stat o.agentCert)]
      else if o.agentCert ≠ "" ∧ o.agentKey = "" then
        fmt.Errorf "cannot have agent key empty when agent cert is set to \"%s\""
          [.string o.agentCert]
      else if o.caCert ≠ "" ∧ fileMissing fs o.caCert then
        fmt.Errorf "error checking agent CA cert %s, got %v"
          [.string o.caCert, .ofError (fs.stat o.caCert)]
      else if o.proxyServerPort ≤ 0 then
        fmt.Errorf "proxy server port %d must be greater than 0" [.int o.proxyServerPort]
      else none := by
  simp only [GrpcProxyAgentOptions.Validate, fileMissing, run_ite, run_pure, run_bind, run_Stat]
  by_cases h1 : o.agentKey = "" <;> by_cases h2 : o.agentCert = "" <;>
    by_cases h3 : o.caCert = "" <;> by_cases h4 : o.proxyServerPort ≤ 0 <;>
    by_cases h5 : os.IsNotExist (fs.stat o.agentKey) = true <;>
    by_cases h6 : os.IsNotExist (fs.stat o.agentCert) = true <;>
    by_cases h7 : os.IsNotExist (fs.stat o.caCert) = true <;>
    simp [h1, h2, h3, h4, h5, h6, h7, run_ite, run_pure, run_bind, run_Stat]

/-- The effect of `Validate` on the state: it only adds `stat` calls on
non-empty path fields to the trace. -/
theorem Validate_snd (fs : FS) (o : GrpcProxyAgentOptions) (s : State) :
    ∃ t, (o.Validate fs s).2 = { s with trace := s.trace ++ t } ∧
      ∀ ev ∈ t, ∃ p ∈ pathFields o, p ≠ "" ∧ ev = .osStat p := by
  simp only [GrpcProxyAgentOptions.Validate, run_ite, run_pure, run_bind, run_Stat]
  by_cases h1 : o.agentKey = "" <;> by_cases h2 : o.agentCert = "" <;>
    by_cases h3 : o.caCert = "" <;> by_cases h4 : o.proxyServerPort ≤ 0 <;>
    by_cases h5 : os.IsNotExist (fs.stat o.agentKey) = true <;>
    by_cases h6 : os.IsNotExist (fs.stat o.agentCert) = true <;>
    by_cases h7 : os.IsNotExist (fs.stat o.caCert) = true <;>
    simp only [h1, h2, h3, h4, h5, h6, h7, run_ite, run_pure, run_bind, run_Stat, if_true, if_false,
      ne_eq, not_true_eq_false, not_false_eq_true, List.append_assoc, Bool.false_eq_true] <;>
    first
      | (refine ⟨[_], rfl, ?_⟩; simp [pathFields, h1, h2, h3])
      | (refine ⟨[_, _], rfl, ?_⟩; simp [pathFields, h1, h2, h3])
      | (refine ⟨[_, _, _], rfl, ?_⟩; simp [pathFields, h1, h2, h3])
      | (refine ⟨[], ?_, ?_⟩ <;> simp)

theorem fileMissing_iff (fs : FS) (p : String) :
    fileMissing fs p ↔ fs p = some syscall.ENOENT := by
  unfold fileMissing FS.stat
  cases h : fs p <;> simp [os.IsNotExist]

theorem not_fileMissing_of_fileExists (fs : FS) (p : String) (h : fileExists fs p) :
    ¬ fileMissing fs p := by
  rw [fileMissing_iff]
  unfold fileExists at h
  simp [h]

/-! ## Validation -/

/-- C1: options that satisfy I1, I2 and I3 on a filesystem are accepted by
`Validate`: it returns nil. -/
theorem validate_accepts_invariants (fs : FS) (o : GrpcProxyAgentOptions) (s : State)
    (h1 : I1 o) (h2 : I2 fs o) (h3 : I3 o) : (o.Validate fs s).1 = none := by
  have hk : o.agentKey ≠ "" → ¬ fileMissing fs o.agentKey := fun hne =>
    not_fileMissing_of_fileExists fs _ (h2 _ (by simp [pathFields]) hne)
  have hc : o.agentCert ≠ "" → ¬ fileMissing fs o.agentCert := fun hne =>
    not_fileMissing_of_fileExists fs _ (h2 _ (by simp [pathFields]) hne)
  have ha : o.caCert ≠ "" → ¬ fileMissing fs o.caCert := fun hne =>
    not_fileMissing_of_fileExists fs _ (h2 _ (by simp [pathFields]) hne)
  have hp : ¬ o.proxyServerPort ≤ 0 := not_le.mpr h3
  rw [Validate_fst]
  unfold I1 at h1
  rcases h1 with ⟨hce, hke⟩ | ⟨hcn, hkn⟩
  · by_cases h : o.caCert = "" <;> simp [hce, hke, hp, h, ha]
  · by_cases h : o.caCert = "" <;> simp [hcn, hkn, hp, h, ha, hk, hc]

/-- C1, at the record of the specification (three empty paths, host 127.0.0.1,
port 8091) and at a record whose three invariants hold with files present. -/
theorem validate_accepts_invariants_witness :
    (I1 newGrpcProxyAgentOptions ∧ I2 sampleFS newGrpcProxyAgentOptions ∧
        I3 newGrpcProxyAgentOptions ∧
        (newGrpcProxyAgentOptions.Validate sampleFS State.init).1 = none) ∧
      (I1 identityOptions ∧ I2 sampleFS identityOptions ∧ I3 identityOptions ∧
        (identityOptions.Validate sampleFS State.init).1 = none) :=
  ⟨⟨by decide, by decide, by decide,
      validate_accepts_invariants sampleFS newGrpcProxyAgentOptions State.init
        (by decide) (by decide) (by decide)⟩,
    ⟨by decide, by decide, by decide,
      validate_accepts_invariants sampleFS identityOptions State.init
        (by decide) (by decide) (by decide)⟩⟩

/-- The method `Validate` computes the validator of the specification: its result, read
as an error kind, is the result of the four rules checked in order. -/
theorem abstractResult_Validate (fs : FS) (o : GrpcProxyAgentOptions) (s : State) :
    abstractResult (o.Validate fs s).1 = some (validateSpec fs o) := by
  rw [Validate_fst]
  simp only [validateSpec, validateInOrder, Rule.check]
  by_cases h1 : o.agentKey = "" <;> by_cases h2 : o.agentCert = "" <;>
    by_cases h3 : o.caCert = "" <;> by_cases h4 : o.proxyServerPort ≤ 0 <;>
    by_cases h5 : fileMissing fs o.agentKey <;>
    by_cases h6 : fileMissing fs o.agentCert <;>
    by_cases h7 : fileMissing fs o.caCert <;>
    simp [h1, h2, h3, h4, h5, h6, h7, abstractResult, classify, pathOperand, fmt.Errorf]

/-- C2, as amended: when exactly one of `agentCert` and `agentKey` is non-empty,
whatever `caCert` and the port are, `Validate` returns the `IncompleteIdentity`
error if `stat` on that path does not fail with a not-exist error, and the
`MissingFile` error naming that path if it does. -/
theorem incomplete_identity_when_present (fs : FS) (o : GrpcProxyAgentOptions) (s : State)
    (h : exactlyOneIdentity o) :
    (¬ fileMissing fs (identityPath o) →
        abstractResult (o.Validate fs s).1 = some (.error .IncompleteIdentity)) ∧
      (fileMissing fs (identityPath o) →
        abstractResult (o.Validate fs s).1 =
          some (.error (.MissingFile (identityField o) (identityPath o)))) := by
  rw [abstractResult_Validate]
  simp only [validateSpec, validateInOrder, Rule.check, identityPath, identityField]
  rcases h with ⟨hk, hc⟩ | ⟨hk, hc⟩
  · constructor <;> intro hm <;> simp [hk, hc] at hm ⊢ <;> simp [hm]
  · constructor <;> intro hm <;> simp [hk, hc] at hm ⊢ <;> simp [hm]

/-- C2 as amended, at a key that exists with no certificate. -/
theorem incomplete_identity_when_present_witness :
    exactlyOneIdentity keyOnlyOptions ∧
      ¬ fileMissing sampleFS (identityPath keyOnlyOptions) ∧
      abstractResult (keyOnlyOptions.Validate sampleFS State.init).1 =
        some (.error .IncompleteIdentity) :=
  ⟨by decide, by decide,
    (incomplete_identity_when_present sampleFS keyOnlyOptions State.init (by decide)).1 (by decide)⟩

/-- C2 fails as stated: with only the key set, to a file that does not exist,
`Validate` returns the `MissingFile` error for the key, not `IncompleteIdentity`. -/
theorem cex_missing_key_without_cert :
    exactlyOneIdentity missingKeyOnlyOptions ∧
      (missingKeyOnlyOptions.Validate sampleFS State.init).1 =
        fmt.Errorf "error checking agent key %s, got %v"
          [.string "/tmp/missing.key",
           .err (some "stat /tmp/missing.key: no such file or directory")] ∧
      abstractResult (missingKeyOnlyOptions.Validate sampleFS State.init).1 ≠
        some (.error .IncompleteIdentity) := by
  refine ⟨by decide, by rfl, by decide⟩

/-- C3, as amended: when a non-empty path field names a file that `stat`
reports as not existing, `Validate` returns an error, which is `MissingFile`
or `IncompleteIdentity`.  It is `MissingFile` unless exactly one of `agentKey`
and `agentCert` is non-empty and `stat` on that one does not fail with a
not-exist error, and in that case it is `IncompleteIdentity`.  In particular it
is `MissingFile` whenever `agentCert` and `agentKey` are both empty or both
non-empty. -/
theorem missing_file_or_incomplete (fs : FS) (o : GrpcProxyAgentOptions) (s : State)
    (h : ∃ p ∈ pathFields o, p ≠ "" ∧ fileMissing fs p) :
    (∃ k, abstractResult (o.Validate fs s).1 = some (.error k) ∧
        (k.isMissingFile = true ∨ k = .IncompleteIdentity)) ∧
      ((∃ k, abstractResult (o.Validate fs s).1 = some (.error k) ∧ k.isMissingFile = true) ↔
        (I1 o ∨ fileMissing fs (identityPath o))) ∧
      (abstractResult (o.Validate fs s).1 = some (.error .IncompleteIdentity) ↔
        (exactlyOneIdentity o ∧ ¬ fileMissing fs (identityPath o))) ∧
      (I1 o → ∃ k, abstractResult (o.Validate fs s).1 = some (.error k) ∧
        k.isMissingFile = true) := by
  rw [abstractResult_Validate]
  simp only [validateSpec, validateInOrder, Rule.check, I1, exactlyOneIdentity, identityPath]
  obtain ⟨p, hp, hne, hm⟩ := h
  simp only [pathFields, List.mem_cons, List.mem_singleton, List.not_mem_nil, or_false] at hp
  by_cases h1 : o.agentKey = "" <;> by_cases h2 : o.agentCert = "" <;>
    by_cases h3 : o.caCert = "" <;>
    by_cases h5 : fileMissing fs o.agentKey <;>
    by_cases h6 : fileMissing fs o.agentCert <;>
    by_cases h7 : fileMissing fs o.caCert <;>
    (first
      | (exfalso
         rcases hp with rfl | rfl | rfl <;> contradiction)
      | simp [h1, h2, h3, h5, h6, h7, ValidationError.isMissingFile])

/-- C3 as amended, at a complete identity with a CA certificate that does not
exist, and at a key that does not exist with no certificate: both give a
`MissingFile` error. -/
theorem missing_file_or_incomplete_witness :
    ((∃ p ∈ pathFields missingCAOptions, p ≠ "" ∧ fileMissing sampleFS p) ∧
      I1 missingCAOptions ∧
      ∃ k, abstractResult (missingCAOptions.Validate sampleFS State.init).1 = some (.error k) ∧
        k.isMissingFile = true) ∧
    ((∃ p ∈ pathFields missingKeyOnlyOptions, p ≠ "" ∧ fileMissing sampleFS p) ∧
      ¬ I1 missingKeyOnlyOptions ∧ fileMissing sampleFS (identityPath missingKeyOnlyOptions) ∧
      ∃ k, abstractResult (missingKeyOnlyOptions.Validate sampleFS State.init).1 =
          some (.error k) ∧
        k.isMissingFile = true) :=
  ⟨⟨by decide, by decide,
      (missing_file_or_incomplete sampleFS missingCAOptions State.init (by decide)).2.2.2
        (by decide)⟩,
    ⟨by decide, by decide, by decide,
      (missing_file_or_incomplete sampleFS missingKeyOnlyOptions State.init (by decide)).2.1.mpr
        (Or.inr (by decide))⟩⟩

/-- C3 fails as stated: with the key set to an existing file, no certificate,
and a CA certificate that does not exist, `Validate` returns the
`IncompleteIdentity` error, not a `MissingFile` error. -/
theorem cex_missing_ca_with_key_only :
    (∃ p ∈ pathFields keyOnlyMissingCAOptions, p ≠ "" ∧ fileMissing sampleFS p) ∧
      (keyOnlyMissingCAOptions.Validate sampleFS State.init).1 =
        fmt.Errorf "cannot have agent cert empty when agent key is set to \"%s\""
          [.string "/tmp/real.key"] ∧
      abstractResult (keyOnlyMissingCAOptions.Validate sampleFS State.init).1 =
        some (.error .IncompleteIdentity) := by
  refine ⟨by decide, by rfl, by decide⟩

/-- C4, as amended: with a port that is not positive `Validate` returns an
error; the error is `InvalidPort` exactly when the three path rules pass, that
is when `agentCert` and `agentKey` are both empty or both non-empty and no
non-empty path is reported as not existing, and then it is the error
`proxy server port %d must be greater than 0` for that port. -/
theorem invalid_port_after_path_rules (fs : FS) (o : GrpcProxyAgentOptions) (s : State)
    (h : o.proxyServerPort ≤ 0) :
    (o.Validate fs s).1 ≠ none ∧
      (abstractResult (o.Validate fs s).1 = some (.error .InvalidPort) ↔
        I1 o ∧ noneMissing fs o) ∧
      (I1 o → noneMissing fs o → (o.Validate fs s).1 =
        fmt.Errorf "proxy server port %d must be greater than 0" [.int o.proxyServerPort]) := by
  have hr := abstractResult_Validate fs o s
  refine ⟨?_, ?_, ?_⟩
  · intro hn
    rw [hn] at hr
    revert hr
    simp only [validateSpec, validateInOrder, Rule.check, abstractResult]
    by_cases h1 : o.agentKey = "" <;> by_cases h2 : o.agentCert = "" <;>
      by_cases h3 : o.caCert = "" <;>
      by_cases h5 : fileMissing fs o.agentKey <;>
      by_cases h6 : fileMissing fs o.agentCert <;>
      by_cases h7 : fileMissing fs o.caCert <;>
      simp [h, h1, h2, h3, h5, h6, h7]
  · rw [hr]
    simp only [validateSpec, validateInOrder, Rule.check, I1, noneMissing, pathFields]
    by_cases h1 : o.agentKey = "" <;> by_cases h2 : o.agentCert = "" <;>
      by_cases h3 : o.caCert = "" <;>
      by_cases h5 : fileMissing fs o.agentKey <;>
      by_cases h6 : fileMissing fs o.agentCert <;>
      by_cases h7 : fileMissing fs o.caCert <;>
      simp [h, h1, h2, h3, h5, h6, h7]
  · intro hi hm
    rw [Validate_fst]
    simp only [I1, noneMissing, pathFields] at hi hm
    by_cases h1 : o.agentKey = "" <;> by_cases h2 : o.agentCert = "" <;>
      by_cases h3 : o.caCert = "" <;>
      by_cases h5 : fileMissing fs o.agentKey <;>
      by_cases h6 : fileMissing fs o.agentCert <;>
      by_cases h7 : fileMissing fs o.caCert <;>
      simp [h, h1, h2, h3, h5, h6, h7] at hi hm ⊢

/-- C4 as amended, at the default options with port 0. -/
theorem invalid_port_after_path_rules_witness :
    portZeroOptions.proxyServerPort ≤ 0 ∧ I1 portZeroOptions ∧
      noneMissing sampleFS portZeroOptions ∧
      (portZeroOptions.Validate sampleFS State.init).1 =
        fmt.Errorf "proxy server port %d must be greater than 0" [.int 0] :=
  ⟨by decide, by decide, by decide,
    (invalid_port_after_path_rules sampleFS portZeroOptions State.init (by decide)).2.2
      (by decide) (by decide)⟩

/-- C4 fails as stated: with port 0 and a key that does not exist, `Validate`
returns the `MissingFile` error for the key, not `InvalidPort`. -/
theorem cex_port_zero_missing_key :
    portZeroMissingKeyOptions.proxyServerPort ≤ 0 ∧
      (portZeroMissingKeyOptions.Validate sampleFS State.init).1 =
        fmt.Errorf "error checking agent key %s, got %v"
          [.string "/tmp/missing.key",
           .err (some "stat /tmp/missing.key: no such file or directory")] ∧
      abstractResult (portZeroMissingKeyOptions.Validate sampleFS State.init).1 ≠
        some (.error .InvalidPort) := by
  refine ⟨by decide, by rfl, by decide⟩

theorem abstractResult_eq_ok_iff (r : error) :
    abstractResult r = some (.ok ()) ↔ r = none := by
  cases r with
  | none => simp [abstractResult]
  | some e => cases h : classify e <;> simp [abstractResult, h]

theorem Validate_eq_none_iff_spec (fs : FS) (o : GrpcProxyAgentOptions) (s : State) :
    (o.Validate fs s).1 = none ↔ validateSpec fs o = .ok () := by
  rw [← abstractResult_eq_ok_iff, abstractResult_Validate]
  simp

theorem validateInOrder_eq_ok_iff (fs : FS) (o : GrpcProxyAgentOptions) (order : List Rule) :
    validateInOrder fs o order = .ok () ↔ ∀ r ∈ order, r.check fs o = .ok () := by
  induction order with
  | nil => simp [validateInOrder]
  | cons r rest ih =>
    simp only [validateInOrder, List.mem_cons, forall_eq_or_imp]
    cases h : r.check fs o with
    | error e => simp
    | ok u => simpa using ih

theorem allViolations_eq_nil_iff (fs : FS) (o : GrpcProxyAgentOptions) (rules : List Rule) :
    allViolations fs o rules = [] ↔ ∀ r ∈ rules, r.check fs o = .ok () := by
  induction rules with
  | nil => simp [allViolations]
  | cons r rest ih =>
    simp only [allViolations, List.mem_cons, forall_eq_or_imp] at ih ⊢
    cases h : r.check fs o with
    | error e => simp [List.filterMap_cons, h]
    | ok u => simpa [List.filterMap_cons, h] using ih

theorem validateSpec_eq_ok_iff (fs : FS) (o : GrpcProxyAgentOptions) :
    validateSpec fs o = .ok () ↔ ∀ r : Rule, r.check fs o = .ok () := by
  unfold validateSpec
  rw [validateInOrder_eq_ok_iff]
  constructor
  · intro h r
    exact h r (by cases r <;> simp)
  · intro h r _
    exact h r

theorem all_rules_ok_iff (fs : FS) (o : GrpcProxyAgentOptions) :
    (∀ r : Rule, r.check fs o = .ok ()) ↔ I1 o ∧ noneMissing fs o ∧ I3 o := by
  constructor
  · intro h
    have hk := h .identityKey
    have hc := h .identityCert
    have ha := h .caCert
    have hp := h .port
    simp only [Rule.check] at hk hc ha hp
    simp only [I1, noneMissing, pathFields, I3]
    by_cases h1 : o.agentKey = "" <;> by_cases h2 : o.agentCert = "" <;>
      by_cases h3 : o.caCert = "" <;> by_cases h4 : o.proxyServerPort ≤ 0 <;>
      by_cases h5 : fileMissing fs o.agentKey <;>
      by_cases h6 : fileMissing fs o.agentCert <;>
      by_cases h7 : fileMissing fs o.caCert <;>
      simp [h1, h2, h3, h4, h5, h6, h7] at hk hc ha hp ⊢ <;> omega
  · rintro ⟨hi, hm, hp⟩ r
    simp only [I1, noneMissing, pathFields, I3] at hi hm hp
    have hp2 : ¬ o.proxyServerPort ≤ 0 := not_le.mpr hp
    cases r <;> simp only [Rule.check] <;>
      by_cases h1 : o.agentKey = "" <;> by_cases h2 : o.agentCert = "" <;>
      by_cases h3 : o.caCert = "" <;>
      by_cases h5 : fileMissing fs o.agentKey <;>
      by_cases h6 : fileMissing fs o.agentCert <;>
      by_cases h7 : fileMissing fs o.caCert <;>
      simp [h1, h2, h3, hp2, h5, h6, h7] at hi hm ⊢

/-- C5, as amended: the error `Validate` returns is that of the first failing
check in the order of the specification (key, certificate, CA certificate,
port), and success when no check fails, a path counting as missing only when
`stat` on it fails with a not-exist error; in particular, with a key that
exists and a certificate on which `stat` fails with a not-exist error, it is
the `error checking agent cert` error carrying the certificate path. -/
theorem validate_first_failing_check (fs : FS) (o : GrpcProxyAgentOptions) (s : State) :
    abstractResult (o.Validate fs s).1 = some (validateSpec fs o) ∧
      (o.agentKey ≠ "" → fileExists fs o.agentKey → o.agentCert ≠ "" →
        fileMissing fs o.agentCert →
        (o.Validate fs s).1 =
            fmt.Errorf "error checking agent cert %s, got %v"
              [.string o.agentCert,
               .ofError (some (.pathError "stat" o.agentCert syscall.ENOENT))] ∧
          abstractResult (o.Validate fs s).1 =
            some (.error (.MissingFile .agentCert o.agentCert))) := by
  refine ⟨abstractResult_Validate fs o s, ?_⟩
  intro hk hke hc hcm
  have hkm : ¬ fileMissing fs o.agentKey := not_fileMissing_of_fileExists fs _ hke
  have hst : fs.stat o.agentCert = some (.pathError "stat" o.agentCert syscall.ENOENT) := by
    rw [fileMissing_iff] at hcm
    simp [FS.stat, hcm]
  constructor
  · rw [Validate_fst]
    simp [hk, hc, hkm, hcm, hst]
  · rw [abstractResult_Validate]
    simp [validateSpec, validateInOrder, Rule.check, hk, hc, hkm, hcm]

/-- C5 at the scenario of the specification: `/tmp/real.key` exists and
`/tmp/missing.pem` does not; the message of the error names the certificate. -/
theorem validate_first_failing_check_witness :
    (missingCertOptions.agentKey ≠ "" ∧ fileExists sampleFS missingCertOptions.agentKey ∧
        missingCertOptions.agentCert ≠ "" ∧ fileMissing sampleFS missingCertOptions.agentCert) ∧
      ((missingCertOptions.Validate sampleFS State.init).1 =
          fmt.Errorf "error checking agent cert %s, got %v"
            [.string "/tmp/missing.pem",
             .ofError (some (.pathError "stat" "/tmp/missing.pem" syscall.ENOENT))] ∧
        abstractResult (missingCertOptions.Validate sampleFS State.init).1 =
          some (.error (.MissingFile .agentCert "/tmp/missing.pem"))) ∧
      (missingCertOptions.Validate sampleFS State.init).1.map GoError.Error =
        some ("error checking agent cert /tmp/missing.pem, " ++
          "got stat /tmp/missing.pem: no such file or directory") :=
  ⟨by decide,
    (validate_first_failing_check sampleFS missingCertOptions State.init).2
      (by decide) (by decide) (by decide) (by decide),
    by decide⟩

/-- C5 fails as stated: with a key that exists and a certificate path that
runs through a regular file, so that it names no file and `stat` on it fails
with `ENOTDIR`, the certificate check does not fail: `Validate` returns nil, not
a `MissingFile` error for the certificate. -/
theorem cex_nil_with_cert_through_file :
    (notDirCertOptions.agentKey ≠ "" ∧ fileExists sampleFS notDirCertOptions.agentKey ∧
        notDirCertOptions.agentCert ≠ "" ∧ ¬ fileExists sampleFS notDirCertOptions.agentCert) ∧
      sampleFS.stat notDirCertOptions.agentCert =
        some (.pathError "stat" "/etc/hostname/ca.pem" syscall.ENOTDIR) ∧
      (notDirCertOptions.Validate sampleFS State.init).1 = none ∧
      abstractResult (notDirCertOptions.Validate sampleFS State.init).1 ≠
        some (.error (.MissingFile .agentCert notDirCertOptions.agentCert)) := by
  refine ⟨by decide, by rfl, by rfl, by decide⟩

/-- C6 fails as stated: `Validate` returns nil on a CA certificate path that
runs through a regular file, on which `stat` fails with `ENOTDIR`, although the
path names no existing file and I2 does not hold. -/
theorem cex_nil_without_existing_file :
    (notDirCAOptions.Validate sampleFS State.init).1 = none ∧
      ¬ fileExists sampleFS notDirCAOptions.caCert ∧
      ¬ (I1 notDirCAOptions ∧ I2 sampleFS notDirCAOptions ∧ I3 notDirCAOptions) := by
  refine ⟨by rfl, by decide, by decide⟩

/-- C6, as amended: `Validate` returns an error exactly when one of the four
rules is violated, a path rule being violated only by a not-exist error of
`stat`; it returns nil exactly when I1 and I3 hold and no non-empty path is
reported as not existing; and checking the four rules in any order, or all of
them, accepts the same inputs. -/
theorem validate_order_independent (fs : FS) (o : GrpcProxyAgentOptions) (s : State) :
    ((o.Validate fs s).1 ≠ none ↔ ∃ r : Rule, r.violated fs o) ∧
      ((o.Validate fs s).1 = none ↔ I1 o ∧ noneMissing fs o ∧ I3 o) ∧
      (∀ order : List Rule, (∀ r : Rule, r ∈ order) →
        (validateInOrder fs o order = .ok () ↔ (o.Validate fs s).1 = none)) ∧
      (∀ rules : List Rule, (∀ r : Rule, r ∈ rules) →
        (allViolations fs o rules = [] ↔ (o.Validate fs s).1 = none)) := by
  have hv := Validate_eq_none_iff_spec fs o s
  rw [validateSpec_eq_ok_iff] at hv
  refine ⟨?_, ?_, ?_, ?_⟩
  · rw [ne_eq, hv]
    simp [Rule.violated]
  · rw [hv, all_rules_ok_iff]
  · intro order hall
    rw [hv, validateInOrder_eq_ok_iff]
    exact ⟨fun h r => h r (hall r), fun h r _ => h r⟩
  · intro rules hall
    rw [hv, allViolations_eq_nil_iff]
    exact ⟨fun h r => h r (hall r), fun h r _ => h r⟩

/-- C6 as amended, at the reverse order of the rules: on options whose
certificate is missing both orders reject, on options whose files exist both
accept. -/
theorem validate_order_independent_witness :
    (∀ r : Rule, r ∈ [Rule.port, Rule.caCert, Rule.identityCert, Rule.identityKey]) ∧
      (validateInOrder sampleFS missingCertOptions
          [Rule.port, Rule.caCert, Rule.identityCert, Rule.identityKey] = .ok () ↔
        (missingCertOptions.Validate sampleFS State.init).1 = none) ∧
      (allViolations sampleFS identityOptions
          [Rule.port, Rule.caCert, Rule.identityCert, Rule.identityKey] = [] ↔
        (identityOptions.Validate sampleFS State.init).1 = none) :=
  ⟨fun r => by cases r <;> decide,
    (validate_order_independent sampleFS missingCertOptions State.init).2.2.1 _
      (fun r => by cases r <;> decide),
    (validate_order_independent sampleFS identityOptions State.init).2.2.2 _
      (fun r => by cases r <;> decide)⟩

/-- C9: `newGrpcProxyAgentOptions` is the record with empty `agentCert`,
`agentKey` and `caCert`, host 127.0.0.1 and port 8091, and `Validate` accepts
it on every filesystem without making any call: the state is unchanged. -/
theorem default_options_valid :
    newGrpcProxyAgentOptions =
        { agentCert := "", agentKey := "", caCert := "",
          proxyServerHost := "127.0.0.1", proxyServerPort := 8091 } ∧
      ∀ (fs : FS) (s : State), newGrpcProxyAgentOptions.Validate fs s = (none, s) := by
  refine ⟨rfl, ?_⟩
  intro fs s
  rfl

/-- C10: when `agentKey` and `agentCert` are both empty or both non-empty, the
port is positive, and `stat` on every non-empty path either succeeds or fails
with an error that is not a not-exist error, `Validate` returns nil. -/
theorem validate_accepts_other_stat_errors (fs : FS) (o : GrpcProxyAgentOptions) (s : State)
    (h1 : I1 o) (h3 : 0 < o.proxyServerPort)
    (h2 : ∀ p ∈ pathFields o, p ≠ "" → os.IsNotExist (fs.stat p) = false) :
    (o.Validate fs s).1 = none := by
  rw [Validate_eq_none_iff_spec, validateSpec_eq_ok_iff, all_rules_ok_iff]
  refine ⟨h1, ?_, h3⟩
  intro p hp hne hm
  have := h2 p hp hne
  unfold fileMissing at hm
  rw [hm] at this
  exact Bool.noConfusion this

/-- C10 at a complete identity whose CA certificate cannot be examined (`stat`
fails with permission denied): `Validate` returns nil although `stat` never
succeeded on the CA certificate. -/
theorem validate_accepts_other_stat_errors_witness :
    (I1 unreadableCAOptions ∧ 0 < unreadableCAOptions.proxyServerPort ∧
        ∀ p ∈ pathFields unreadableCAOptions, p ≠ "" →
          os.IsNotExist (sampleFS.stat p) = false) ∧
      sampleFS.stat unreadableCAOptions.caCert =
        some (.pathError "stat" "/root/ca.pem" syscall.EACCES) ∧
      ¬ I2 sampleFS unreadableCAOptions ∧
      (unreadableCAOptions.Validate sampleFS State.init).1 = none :=
  ⟨by decide, by decide, by decide,
    validate_accepts_other_stat_errors sampleFS unreadableCAOptions State.init
      (by decide) (by decide) (by decide)⟩

/-! ## Start-up sequence -/

theorem Validate_fst_indep (fs : FS) (o : GrpcProxyAgentOptions) (s s' : State) :
    (o.Validate fs s).1 = (o.Validate fs s').1 := by
  rw [Validate_fst, Validate_fst]

theorem run_Print (o : GrpcProxyAgentOptions) (s : State) :
    o.Print s = ((), { s with trace := s.trace ++
      [ .klogWarningf (fmt.Sprintf "AgentCert set to \"%s\".\n" [.string o.agentCert]),
        .klogWarningf (fmt.Sprintf "AgentKey set to \"%s\".\n" [.string o.agentKey]),
        .klogWarningf (fmt.Sprintf "CACert set to \"%s\".\n" [.string o.caCert]),
        .klogWarningf (fmt.Sprintf "ProxyServerHost set to \"%s\".\n" [.string o.proxyServerHost]),
        .klogWarningf (fmt.Sprintf "ProxyServerPort set to %d.\n" [.int o.proxyServerPort]) ] }) := by
  simp [GrpcProxyAgentOptions.Print, klog.Warningf, run_bind, run_emit, bind_assoc]

/-- The effect of `Print` on the state: it only adds log lines to the trace. -/
theorem Print_snd (o : GrpcProxyAgentOptions) (s : State) :
    ∃ t, (o.Print s).2 = { s with trace := s.trace ++ t } ∧
      ∀ ev ∈ t, ∃ m, ev = .klogWarningf m := by
  rw [run_Print]
  refine ⟨_, rfl, ?_⟩
  intro ev h
  simp only [List.mem_cons, List.mem_singleton, List.not_mem_nil, or_false] at h
  rcases h with h | h | h | h | h <;> exact ⟨_, h⟩

theorem run_runProxyConnection (a : Agent) (env : Env) (o : GrpcProxyAgentOptions) (s : State) :
    a.runProxyConnection env o s =
      match env.GetClientTLSConfig o.caCert o.agentCert o.agentKey o.proxyServerHost with
      | .error err =>
        (some err, { s with trace := s.trace ++
          [.GetClientTLSConfig o.caCert o.agentCert o.agentKey o.proxyServerHost] })
      | .ok tlsConfig =>
        match env.NewAgentClient
            (fmt.Sprintf "%s:%d" [.string o.proxyServerHost, .int o.proxyServerPort])
            (grpc.WithTransportCredentials (credentials.NewTLS tlsConfig)) with
        | .error err =>
          (some err, { s with trace := s.trace ++
            [.GetClientTLSConfig o.caCert o.agentCert o.agentKey o.proxyServerHost,
             .NewAgentClient
               (fmt.Sprintf "%s:%d" [.string o.proxyServerHost, .int o.proxyServerPort])
               (grpc.WithTransportCredentials (credentials.NewTLS tlsConfig))] })
        | .ok client =>
          (none, { trace := s.trace ++
            [.GetClientTLSConfig o.caCert o.agentCert o.agentKey o.proxyServerHost,
             .NewAgentClient
               (fmt.Sprintf "%s:%d" [.string o.proxyServerHost, .int o.proxyServerPort])
               (grpc.WithTransportCredentials (credentials.NewTLS tlsConfig)),
             .go]
                   goroutines := s.goroutines ++ [[.clientServe client]] }) := by
  simp only [Agent.runProxyConnection, util.GetClientTLSConfig, agentclient.NewAgentClient,
    run_bind, run_emit, run_pure]
  cases h1 : env.GetClientTLSConfig o.caCert o.agentCert o.agentKey o.proxyServerHost with
  | error err => simp [run_pure]
  | ok tlsConfig =>
    simp only [run_bind, run_emit, run_pure]
    cases h2 : env.NewAgentClient
        (fmt.Sprintf "%s:%d" [.string o.proxyServerHost, .int o.proxyServerPort])
        (grpc.WithTransportCredentials (credentials.NewTLS tlsConfig)) with
    | error err => simp [run_pure]
    | ok client =>
      simp [run_pure, run_bind, goStmt, agentclient.AgentClient.Serve, emit, State.init]

theorem runProxyConnection_fst_indep (a : Agent) (env : Env) (o : GrpcProxyAgentOptions)
    (s s' : State) : (a.runProxyConnection env o s).1 = (a.runProxyConnection env o s').1 := by
  rw [run_runProxyConnection, run_runProxyConnection]
  cases env.GetClientTLSConfig o.caCert o.agentCert o.agentKey o.proxyServerHost with
  | error err => rfl
  | ok tlsConfig =>
    simp only []
    cases env.NewAgentClient
        (fmt.Sprintf "%s:%d" [.string o.proxyServerHost, .int o.proxyServerPort])
        (grpc.WithTransportCredentials (credentials.NewTLS tlsConfig)) <;> rfl

/-- When `runProxyConnection` returns an error it has started no goroutine and
has only added calls of the TLS helper and of the client constructor. -/
theorem runProxyConnection_snd_of_error (a : Agent) (env : Env) (o : GrpcProxyAgentOptions)
    (s : State) (e : GoError) (h : (a.runProxyConnection env o s).1 = some e) :
    ∃ t, (a.runProxyConnection env o s).2 = { s with trace := s.trace ++ t } ∧ Event.go ∉ t := by
  rw [run_runProxyConnection] at h ⊢
  cases h1 : env.GetClientTLSConfig o.caCert o.agentCert o.agentKey o.proxyServerHost with
  | error err => exact ⟨[_], rfl, by simp⟩
  | ok tlsConfig =>
    rw [h1] at h
    simp only [] at h ⊢
    cases h2 : env.NewAgentClient
        (fmt.Sprintf "%s:%d" [.string o.proxyServerHost, .int o.proxyServerPort])
        (grpc.WithTransportCredentials (credentials.NewTLS tlsConfig)) with
    | error err => exact ⟨[_, _], rfl, by simp⟩
    | ok client =>
      rw [h2] at h
      simp at h

theorem run_runAdminServer (a : Agent) (env : Env) (o : GrpcProxyAgentOptions) (s : State) :
    a.runAdminServer env o s =
      (none, { trace := s.trace ++ [.go]
               goroutines := s.goroutines ++
                 [(adminServerGoroutine env "127.0.0.1:8093" ["/healthz", "/ready", "/metrics"]
                    (1 <<< 20) State.init).2.trace] }) := rfl

/-- The three ways `run` proceeds, by the results of `Validate` and of
`runProxyConnection`. -/
theorem run_run (a : Agent) (env : Env) (o : GrpcProxyAgentOptions) (s : State) :
    a.run env o s =
      match (o.Validate env.fs (o.Print s).2).1 with
      | some e =>
        (.returned (fmt.Errorf "failed to validate agent options with %v" [.ofError (some e)]),
          (o.Validate env.fs (o.Print s).2).2)
      | none =>
        match (a.runProxyConnection env o (o.Validate env.fs (o.Print s).2).2).1 with
        | some e =>
          (.returned (fmt.Errorf "failed to run proxy connection with %v" [.ofError (some e)]),
            (a.runProxyConnection env o (o.Validate env.fs (o.Print s).2).2).2)
        | none =>
          (.blocked,
            (a.runAdminServer env o
              (a.runProxyConnection env o (o.Validate env.fs (o.Print s).2).2).2).2) := by
  simp only [Agent.run, run_bind, run_ite, run_pure]
  cases h1 : (o.Validate env.fs (o.Print s).2).1 with
  | some e => simp
  | none =>
    simp only []
    cases h2 : (a.runProxyConnection env o (o.Validate env.fs (o.Print s).2).2).1 with
    | some e => simp
    | none => simp [run_runAdminServer]

/-- C7: `run` validates, then connects the tunnel, then starts the admin
server, and stops at the first step that fails.  If `Validate` returns an error,
`run` returns the `failed to validate agent options` error, having started no
goroutine and made no call other than logging and `stat`.  If `Validate`
succeeds and `runProxyConnection` returns an error, `run` returns the
`failed to run proxy connection` error, having started no goroutine, so that
`runAdminServer` was not called.  If both succeed, the state `run` reaches is
that of `Print`, `Validate`, `runProxyConnection` and `runAdminServer` run one
after the other, and `run` stays blocked. -/
theorem run_stops_at_first_failure (a : Agent) (env : Env) (o : GrpcProxyAgentOptions)
    (s : State) :
    (∀ (e : GoError) (s' : State), (o.Validate env.fs s').1 = some e →
        (a.run env o s).1 = .returned
          (fmt.Errorf "failed to validate agent options with %v" [.ofError (some e)]) ∧
        (a.run env o s).2.goroutines = s.goroutines ∧
        ∃ t, (a.run env o s).2.trace = s.trace ++ t ∧
          ∀ ev ∈ t, (∃ m, ev = .klogWarningf m) ∨ (∃ p, ev = .osStat p)) ∧
      (∀ (e : GoError) (s' s'' : State), (o.Validate env.fs s').1 = none →
        (a.runProxyConnection env o s'').1 = some e →
        (a.run env o s).1 = .returned
          (fmt.Errorf "failed to run proxy connection with %v" [.ofError (some e)]) ∧
        (a.run env o s).2.goroutines = s.goroutines ∧
        ∃ t, (a.run env o s).2.trace = s.trace ++ t ∧ Event.go ∉ t) ∧
      (∀ (s' s'' : State), (o.Validate env.fs s').1 = none →
        (a.runProxyConnection env o s'').1 = none →
        (a.run env o s).1 = .blocked ∧
        (a.run env o s).2 =
          (a.runAdminServer env o
            (a.runProxyConnection env o (o.Validate env.fs (o.Print s).2).2).2).2) := by
  obtain ⟨tl, hls, hlt⟩ := Print_snd o s
  obtain ⟨tv, hvs0, hvt⟩ := Validate_snd env.fs o (o.Print s).2
  have hvs : (o.Validate env.fs (o.Print s).2).2 =
      { trace := s.trace ++ (tl ++ tv), goroutines := s.goroutines } := by
    rw [hvs0, hls]
    simp only [List.append_assoc]
  refine ⟨?_, ?_, ?_⟩
  · intro e s' hv
    rw [Validate_fst_indep env.fs o s' (o.Print s).2] at hv
    rw [run_run, hv]
    refine ⟨rfl, ?_, ?_⟩
    · simp only [hvs]
    · refine ⟨tl ++ tv, ?_, ?_⟩
      · simp only [hvs]
      · intro ev hev
        rcases List.mem_append.mp hev with h | h
        · exact Or.inl (hlt ev h)
        · obtain ⟨p, _, _, hp⟩ := hvt ev h
          exact Or.inr ⟨p, hp⟩
  · intro e s' s'' hv hp
    rw [Validate_fst_indep env.fs o s' (o.Print s).2] at hv
    rw [runProxyConnection_fst_indep a env o s'' (o.Validate env.fs (o.Print s).2).2] at hp
    obtain ⟨tp, hps0, hpt⟩ := runProxyConnection_snd_of_error a env o _ e hp
    have hps : (a.runProxyConnection env o (o.Validate env.fs (o.Print s).2).2).2 =
        { trace := s.trace ++ (tl ++ (tv ++ tp)), goroutines := s.goroutines } := by
      rw [hps0, hvs]
      simp only [List.append_assoc]
    rw [run_run, hv]
    simp only []
    rw [hp]
    refine ⟨rfl, ?_, ?_⟩
    · simp only [hps]
    · refine ⟨tl ++ (tv ++ tp), ?_, ?_⟩
      · simp only [hps]
      · intro hgo
        rcases List.mem_append.mp hgo with h | h
        · obtain ⟨m, hm⟩ := hlt _ h
          exact Event.noConfusion hm
        · rcases List.mem_append.mp h with h | h
          · obtain ⟨p, _, _, hp⟩ := hvt _ h
            exact Event.noConfusion hp
          · exact hpt h
  · intro s' s'' hv hp
    rw [Validate_fst_indep env.fs o s' (o.Print s).2] at hv
    rw [runProxyConnection_fst_indep a env o s'' (o.Validate env.fs (o.Print s).2).2] at hp
    rw [run_run, hv]
    simp only []
    rw [hp]
    exact ⟨rfl, rfl⟩

/-- C7 at options whose certificate does not exist, and at the default options
with a proxy server that cannot be reached. -/
theorem run_stops_at_first_failure_witness :
    ((missingCertOptions.Validate unreachableEnv.fs State.init).1 =
        some (.errorf "error checking agent cert %s, got %v"
          [.string "/tmp/missing.pem",
           .err (some "stat /tmp/missing.pem: no such file or directory")]) ∧
      (Agent.run {} unreachableEnv missingCertOptions State.init).1 = .returned
        (fmt.Errorf "failed to validate agent options with %v"
          [.err (some ("error checking agent cert /tmp/missing.pem, " ++
            "got stat /tmp/missing.pem: no such file or directory"))]) ∧
      (Agent.run {} unreachableEnv missingCertOptions State.init).2.goroutines = []) ∧
    ((newGrpcProxyAgentOptions.Validate unreachableEnv.fs State.init).1 = none ∧
      (Agent.runProxyConnection {} unreachableEnv newGrpcProxyAgentOptions State.init).1 =
        some (.errorf "connection refused" []) ∧
      (Agent.run {} unreachableEnv newGrpcProxyAgentOptions State.init).1 = .returned
        (fmt.Errorf "failed to run proxy connection with %v"
          [.err (some "connection refused")]) ∧
      (Agent.run {} unreachableEnv newGrpcProxyAgentOptions State.init).2.goroutines = []) :=
  ⟨⟨by rfl,
      ((run_stops_at_first_failure {} unreachableEnv missingCertOptions State.init).1
        (.errorf "error checking agent cert %s, got %v"
          [.string "/tmp/missing.pem",
           .err (some "stat /tmp/missing.pem: no such file or directory")])
        State.init (by rfl)).1,
      ((run_stops_at_first_failure {} unreachableEnv missingCertOptions State.init).1
        (.errorf "error checking agent cert %s, got %v"
          [.string "/tmp/missing.pem",
           .err (some "stat /tmp/missing.pem: no such file or directory")])
        State.init (by rfl)).2.1⟩,
    ⟨by rfl, by rfl,
      ((run_stops_at_first_failure {} unreachableEnv newGrpcProxyAgentOptions State.init).2.1
        (.errorf "connection refused" []) State.init State.init (by rfl) (by rfl)).1,
      ((run_stops_at_first_failure {} unreachableEnv newGrpcProxyAgentOptions State.init).2.1
        (.errorf "connection refused" []) State.init State.init (by rfl) (by rfl)).2.1⟩⟩

/-- C8: `runAdminServer` returns nil whatever the listener does, and `run` never
returns the `failed to run admin server` error; an error of the listener only
shows as a warning logged by the goroutine that runs it. -/
theorem runAdminServer_returns_nil (a : Agent) (env : Env) (o : GrpcProxyAgentOptions)
    (s : State) :
    (a.runAdminServer env o s).1 = none ∧
      (∀ args : List fmt.Arg, (a.run env o s).1 ≠
        .returned (fmt.Errorf "failed to run admin server with %v" args)) ∧
      (∀ err : GoError, env.ListenAndServe "127.0.0.1:8093" = some err →
        (a.runAdminServer env o s).2 =
          { trace := s.trace ++ [.go]
            goroutines := s.goroutines ++
              [[.ListenAndServe "127.0.0.1:8093" ["/healthz", "/ready", "/metrics"] 1048576,
                .klogWarningf (fmt.Sprintf "health server received %v.\n" [.ofError (some err)]),
                .klogWarningf (fmt.Sprintf "Health server stopped listening\n" [])]] }) := by
  refine ⟨rfl, ?_, ?_⟩
  · intro args
    rw [run_run]
    cases (o.Validate env.fs (o.Print s).2).1 with
    | some e => simp [fmt.Errorf]
    | none =>
      simp only []
      cases (a.runProxyConnection env o (o.Validate env.fs (o.Print s).2).2).1 with
      | some e => simp [fmt.Errorf]
      | none => simp
  · intro err herr
    rw [run_runAdminServer]
    simp [adminServerGoroutine, herr, run_bind, run_emit, run_ite, run_pure, klog.Warningf,
      State.init]

/-- C8 at an admin address that is already taken: the bind failure is logged by
the goroutine and `runAdminServer` returns nil. -/
theorem runAdminServer_returns_nil_witness :
    unreachableEnv.ListenAndServe "127.0.0.1:8093" =
        some (.errorf "listen tcp 127.0.0.1:8093: bind: address already in use" []) ∧
      (Agent.runAdminServer {} unreachableEnv newGrpcProxyAgentOptions State.init).1 = none ∧
      (Agent.runAdminServer {} unreachableEnv newGrpcProxyAgentOptions State.init).2 =
        { trace := [.go]
          goroutines :=
            [[.ListenAndServe "127.0.0.1:8093" ["/healthz", "/ready", "/metrics"] 1048576,
              .klogWarningf ("health server received listen tcp 127.0.0.1:8093: " ++
                "bind: address already in use.\n"),
              .klogWarningf "Health server stopped listening\n"]] } :=
  ⟨rfl,
    (runAdminServer_returns_nil {} unreachableEnv newGrpcProxyAgentOptions State.init).1,
    (runAdminServer_returns_nil {} unreachableEnv newGrpcProxyAgentOptions State.init).2.2
      _ rfl⟩

end AgentMain
